import Mathlib

/-!
Verification development for the shopify-app-remix excerpt: the
app-bridge redirect helper, the SDK type contracts, and the MongoDB
session-storage adapter package.

Shallow embedding conventions:
* TypeScript template literals become Lean string interpolation.
* The web `Headers` object is embedded as an association list of
  header name/value pairs; `set` replaces an existing entry or appends.
  The repository uses each header name with one consistent casing, so
  names are compared verbatim.
* A function typed `never` that throws a `Response` is embedded as a
  function into `Except Response Empty`: the `ok` branch is
  uninhabited, so no normal return is possible.
-/

/-- Header name/value pairs, embedding the web `Headers` object. -/
structure Headers where
  entries : List (String × String)
deriving DecidableEq, Repr

def Headers.empty : Headers := Headers.mk []

/-- Embeds `headers.set(name, value)`: replace an existing entry for
`name`, else append. -/
def Headers.set (hs : Headers) (name value : String) : Headers :=
  if hs.entries.any fun p => p.fst == name then
    Headers.mk (hs.entries.map fun p => if p.fst == name then (name, value) else p)
  else
    Headers.mk (hs.entries ++ [(name, value)])

/-- Embeds `headers.get(name)`. -/
def Headers.get (hs : Headers) (name : String) : Option String :=
  (hs.entries.find? fun p => p.fst == name).map Prod.snd

/-- Embeds `headers.has(name)`. -/
def Headers.contains (hs : Headers) (name : String) : Bool :=
  (hs.get name).isSome

/-- Embeds the constructor call `new Headers({[name]: value})`. -/
def Headers.ofSingle (name value : String) : Headers :=
  Headers.empty.set name value

/-- Embeds the web `Response` object as far as the source observes it:
status, statusText, headers and the (absent) body. -/
structure Response where
  status : Nat
  statusText : String
  headers : Headers
  body : Option String
deriving DecidableEq, Repr

/-- Embeds the `auth` sub-object of `AppConfig`; the redirect helper
reads only `auth.path`. -/
structure AuthConfig where
  path : String
deriving DecidableEq, Repr

/-- Embeds the fields of `AppConfig` read by the code under study:
`appUrl`, `auth`, and `isEmbeddedApp`. -/
structure AppConfig where
  appUrl : String
  auth : AuthConfig
  isEmbeddedApp : Bool
deriving DecidableEq, Repr

/-- Embeds `BasicParams` from `src/unnamed/part_000`: `api` and
`logger` are vendor objects the code under study never inspects, so
they are embedded as `Unit`. -/
structure BasicParams where
  api : Unit
  config : AppConfig
  logger : Unit
deriving DecidableEq, Repr

/-- Modelled from the spec: the header name constant
`REAUTH_URL_HEADER` exported by `./add-response-headers`, a module not
present under `src/`. The spec fixes only that it is one constant
header name consumed by the App Bridge client script; its concrete
spelling is immaterial to the claims. -/
def REAUTH_URL_HEADER : String :=
  "X-Shopify-API-Request-Failure-Reauthorize-Url"

/-- Modelled from the spec: the single embedded-app-specific header
added by `addResponseHeaders` (iframe-protection headers for apps
rendered inside the admin iframe). -/
def CSP_HEADER : String := "Content-Security-Policy"

/-- Modelled from the spec: `addResponseHeaders` from
`./add-response-headers`, a module not present under `src/`. Per the
spec, inclusion of the embedded-app-specific headers is conditioned
exactly on the `isEmbeddedApp` flag, and the helper adds the
iframe-protection header for the given shop; it touches no other
header. -/
def addResponseHeaders (headers : Headers) (isEmbeddedApp : Bool) (shop : String) :
    Headers :=
  if isEmbeddedApp then
    headers.set CSP_HEADER s!"frame-ancestors https://{shop} https://admin.shopify.com;"
  else
    headers

/-- Embeds `getAppBridgeHeaders` from
`src/packages/shopify-app-remix/src/auth/helpers/redirect-with-app-bridge-headers.ts`. -/
def getAppBridgeHeaders (params : BasicParams) (url : String) (shop : String) :
    Headers :=
  let config := params.config
  let headers := Headers.ofSingle REAUTH_URL_HEADER url
  addResponseHeaders headers config.isEmbeddedApp shop

/-- Embeds the local `redirectUri` template literal of
`redirectWithAppBridgeHeaders`. -/
def redirectUriFor (params : BasicParams) (shop : String) : String :=
  let config := params.config
  let appUrl := config.appUrl
  let authPath := config.auth.path
  s!"{appUrl}{authPath}?shop={shop}"

/-- Embeds `redirectWithAppBridgeHeaders`: the TypeScript return type
`never` becomes `Except Response Empty`, and `throw new Response(...)`
becomes `Except.error`. -/
def redirectWithAppBridgeHeaders (params : BasicParams) (shop : String) :
    Except Response Empty :=
  let redirectUri := redirectUriFor params shop
  Except.error
    (Response.mk 401 "Unauthorized" (getAppBridgeHeaders params redirectUri shop) none)

/-- The unique `Response` thrown by `redirectWithAppBridgeHeaders`. -/
def thrownResponse (params : BasicParams) (shop : String) : Response :=
  match redirectWithAppBridgeHeaders params shop with
  | Except.error r => r
  | Except.ok v => v.elim

/-- Embeds the session record described by the spec data model: an
opaque key (`id`) and a value payload with shop domain, OAuth state,
online/offline flag, access token, scopes and expiry. -/
structure Session where
  id : String
  shop : String
  state : String
  isOnline : Bool
  accessToken : Option String
  scope : Option String
  expires : Option Nat
deriving DecidableEq, Repr

/-- Modelled from the spec: the MongoDB session-storage adapter's
backing collection (the adapter implementation is not under `src/`;
only its jest configuration is). The document collection keyed by the
session id is embedded as an association list. -/
abbrev SessionCollection := List (String × Session)

/-- Modelled from the spec: `storeSession` upserts the record by key
— keys other than the stored session's id are untouched. -/
def storeSession (coll : SessionCollection) (session : Session) : SessionCollection :=
  (session.id, session) :: coll.filter fun p => p.fst != session.id

/-- Modelled from the spec: `loadSession` is a point lookup returning
the record or nothing. -/
def loadSession (coll : SessionCollection) (id : String) : Option Session :=
  (coll.find? fun p => p.fst == id).map Prod.snd

/-- Modelled from the spec: `deleteSession` removes the record with
the given key. -/
def deleteSession (coll : SessionCollection) (id : String) : SessionCollection :=
  coll.filter fun p => p.fst != id

/-- An error raised by the underlying database driver. -/
structure DriverError where
  message : String
deriving DecidableEq, Repr

/-- Modelled from the spec: the document database driver the adapter
delegates to, seen through the three calls the adapter makes. Each
call either succeeds or raises a driver error. -/
structure MongoDriver where
  findOne : String → Except DriverError (Option Session)
  updateOne : String → Session → Except DriverError Unit
  deleteOne : String → Except DriverError Unit

/-- Modelled from the spec: the adapter's `storeSession` issues one
upsert through the driver and reports success; driver errors pass
through with no retry, backoff, wrapping or translation. -/
def adapterStoreSession (db : MongoDriver) (session : Session) :
    Except DriverError Bool :=
  match db.updateOne session.id session with
  | Except.error e => Except.error e
  | Except.ok _ => Except.ok true

/-- Modelled from the spec: the adapter's `loadSession` issues one
point lookup through the driver; driver errors pass through
unchanged. -/
def adapterLoadSession (db : MongoDriver) (id : String) :
    Except DriverError (Option Session) :=
  match db.findOne id with
  | Except.error e => Except.error e
  | Except.ok found => Except.ok found

/-- Modelled from the spec: the adapter's `deleteSession` issues one
delete through the driver; driver errors pass through unchanged. -/
def adapterDeleteSession (db : MongoDriver) (id : String) :
    Except DriverError Bool :=
  match db.deleteOne id with
  | Except.error e => Except.error e
  | Except.ok _ => Except.ok true

/-- A driver whose every call fails, used to exercise the
error-propagation theorem at a concrete input. -/
def failingDriver (e : DriverError) : MongoDriver :=
  MongoDriver.mk (fun _ => Except.error e) (fun _ _ => Except.error e)
    (fun _ => Except.error e)

/-- Embeds `enum LoginErrorType` from `src/unnamed/part_000`. -/
inductive LoginErrorType where
  | MissingShop
  | InvalidShop
deriving DecidableEq, Repr

/-- The string value each `LoginErrorType` member is declared with. -/
def LoginErrorType.value : LoginErrorType → String
  | LoginErrorType.MissingShop => "MISSING_SHOP"
  | LoginErrorType.InvalidShop => "INVALID_SHOP"

/-- Embeds `interface LoginError` from `src/unnamed/part_000`: its
only field is the optional `shop` field. -/
structure LoginError where
  shop : Option LoginErrorType
deriving DecidableEq, Repr

/-- Embeds the shape of a jest `Config` as far as this repository's
configs touch it: `testTimeout` plus the remaining fields of the
shared base configuration, which the excerpt never reads and which are
therefore left abstract. -/
structure JestConfig where
  preset : Option String
  testEnvironment : Option String
  testPathIgnorePatterns : List String
  watchPathIgnorePatterns : List String
  testTimeout : Nat
deriving DecidableEq, Repr

/-- Embeds the MongoDB package's `jest.config.ts`:
`{...baseConfig, testTimeout: 70000}`. The shared base configuration
file is not under `src/`, so it stays a parameter. -/
def mongodbJestConfig (baseConfig : JestConfig) : JestConfig :=
  { baseConfig with testTimeout := 70000 }

/-- The entries built by `getAppBridgeHeaders`: the reauth header
first, then the embedded-app header exactly when the flag is set. -/
lemma getAppBridgeHeaders_entries (params : BasicParams) (url shop : String) :
    (getAppBridgeHeaders params url shop).entries =
      if params.config.isEmbeddedApp then
        [(REAUTH_URL_HEADER, url),
         (CSP_HEADER, s!"frame-ancestors https://{shop} https://admin.shopify.com;")]
      else
        [(REAUTH_URL_HEADER, url)] := by
  cases h : params.config.isEmbeddedApp <;>
    simp +decide [getAppBridgeHeaders, addResponseHeaders, Headers.ofSingle,
      Headers.empty, Headers.set, REAUTH_URL_HEADER, CSP_HEADER, h]

/-- Looking up the reauth header in the app-bridge headers always
yields the url passed in. -/
lemma getAppBridgeHeaders_get_reauth (params : BasicParams) (url shop : String) :
    (getAppBridgeHeaders params url shop).get REAUTH_URL_HEADER = some url := by
  cases h : params.config.isEmbeddedApp <;>
    simp +decide [Headers.get, getAppBridgeHeaders_entries, h, List.find?,
      REAUTH_URL_HEADER, CSP_HEADER]

/-- On strings, toString is the identity; interpolation unfolds to
appends of toString applications. -/
lemma toString_string_id (s : String) : toString s = s := rfl

/-- C1: for every params (with config fields appUrl and auth.path) and
every shop domain string, the redirect URL computed by
redirectWithAppBridgeHeaders equals the string concatenation
appUrl + authPath + "?shop=" + shop. -/
theorem redirectUri_eq_appUrl_authPath_shop (params : BasicParams) (shop : String) :
    redirectUriFor params shop =
      params.config.appUrl ++ params.config.auth.path ++ "?shop=" ++ shop := by
  simp [redirectUriFor, toString_string_id, String.empty_append,
    String.append_empty, String.append_assoc]

/-- C2: for every params and every shop string, the Response thrown by
redirectWithAppBridgeHeaders carries the REAUTH_URL_HEADER header, and
that header's value equals the computed redirect URL
(appUrl + authPath + "?shop=" + shop). -/
theorem thrown_reauth_header_eq_redirect_url (params : BasicParams) (shop : String) :
    (thrownResponse params shop).headers.get REAUTH_URL_HEADER =
      some (params.config.appUrl ++ params.config.auth.path ++ "?shop=" ++ shop) := by
  have h := getAppBridgeHeaders_get_reauth params (redirectUriFor params shop) shop
  simpa [thrownResponse, redirectWithAppBridgeHeaders, redirectUriFor,
    toString_string_id, String.empty_append, String.append_empty,
    String.append_assoc] using h

/-- C3: for every params and every shop string, the Response thrown by
redirectWithAppBridgeHeaders has HTTP status 401 (statusText
Unauthorized) and its headers include the header named by the constant
REAUTH_URL_HEADER. -/
theorem thrown_response_is_401_with_reauth_header (params : BasicParams) (shop : String) :
    (thrownResponse params shop).status = 401 ∧
    (thrownResponse params shop).statusText = "Unauthorized" ∧
    (thrownResponse params shop).headers.contains REAUTH_URL_HEADER = true := by
  refine ⟨rfl, rfl, ?_⟩
  have h := getAppBridgeHeaders_get_reauth params (redirectUriFor params shop) shop
  simp [thrownResponse, redirectWithAppBridgeHeaders, Headers.contains, h]

/-- C4: for every params, url and shop, the headers built by
getAppBridgeHeaders include the embedded-app-specific header added by
addResponseHeaders if and only if config.isEmbeddedApp is true; the
isEmbeddedApp flag is the only condition governing its inclusion. -/
theorem embedded_header_iff_isEmbeddedApp (params : BasicParams) (url shop : String) :
    (getAppBridgeHeaders params url shop).contains CSP_HEADER =
      params.config.isEmbeddedApp := by
  cases h : params.config.isEmbeddedApp <;>
    simp +decide [Headers.contains, Headers.get, getAppBridgeHeaders_entries, h,
      List.find?, REAUTH_URL_HEADER, CSP_HEADER]

/-- C6: redirectWithAppBridgeHeaders never returns normally: its
result type has an uninhabited ok branch, and for every input it
evaluates to Except.error of exactly the one response thrownResponse
computes. -/
theorem redirectWithAppBridgeHeaders_always_throws (params : BasicParams) (shop : String) :
    redirectWithAppBridgeHeaders params shop =
      Except.error (thrownResponse params shop) := rfl

/-- C8: for every params, url and shop — in particular also when
config.isEmbeddedApp is false — the Headers object returned by
getAppBridgeHeaders always contains the REAUTH_URL_HEADER header set
to url; the reauth header itself is unconditional, not gated on the
embedded flag. -/
theorem reauth_header_always_present (params : BasicParams) (url shop : String) :
    (getAppBridgeHeaders params url shop).get REAUTH_URL_HEADER = some url :=
  getAppBridgeHeaders_get_reauth params url shop

/-- After deleting a key, no entry with that key remains to be found. -/
lemma find?_delete_none (coll : SessionCollection) (k : String) :
    ((coll.filter fun p => p.fst != k).find? fun p => p.fst == k) = none := by
  rw [List.find?_eq_none]
  intro p hp
  have hmem := (List.mem_filter.mp hp).2
  simpa using hmem

/-- C5: for the session-storage adapter, for every session and every
key: store(session) followed by load(session's key) returns exactly
the stored session payload, and delete(key) followed by load(key)
returns absence. -/
theorem store_load_delete_contract (coll : SessionCollection) (session : Session)
    (k : String) :
    loadSession (storeSession coll session) session.id = some session ∧
    loadSession (deleteSession coll k) k = none := by
  constructor
  · simp [loadSession, storeSession, List.find?_cons]
  · simp [loadSession, deleteSession, find?_delete_none]

/-- C7: for every session-storage adapter operation (store, load,
delete), when the underlying database driver raises an error, that
error propagates to the caller unchanged: the adapter adds no retry,
backoff, wrapping, or translation of driver errors. -/
theorem adapter_propagates_driver_errors (db : MongoDriver) (e : DriverError) :
    (∀ id, db.findOne id = Except.error e →
      adapterLoadSession db id = Except.error e) ∧
    (∀ session, db.updateOne session.id session = Except.error e →
      adapterStoreSession db session = Except.error e) ∧
    (∀ id, db.deleteOne id = Except.error e →
      adapterDeleteSession db id = Except.error e) := by
  refine ⟨fun id h => ?_, fun session h => ?_, fun id h => ?_⟩ <;>
    simp [adapterLoadSession, adapterStoreSession, adapterDeleteSession, h]

/-- A concrete session record used to exercise theorems at a point. -/
def sampleSession : Session :=
  Session.mk "offline_shop1.myshopify.com" "shop1.myshopify.com" "state123" false
    (some "token-abc") (some "read_products") none

/-- Witness for C7: a driver whose every call fails with a concrete
error makes each adapter operation return exactly that error. -/
theorem adapter_propagates_driver_errors_witness :
    adapterLoadSession (failingDriver (DriverError.mk "boom")) "k1" =
      Except.error (DriverError.mk "boom") ∧
    adapterStoreSession (failingDriver (DriverError.mk "boom")) sampleSession =
      Except.error (DriverError.mk "boom") ∧
    adapterDeleteSession (failingDriver (DriverError.mk "boom")) "k1" =
      Except.error (DriverError.mk "boom") :=
  ⟨(adapter_propagates_driver_errors (failingDriver (DriverError.mk "boom"))
      (DriverError.mk "boom")).1 "k1" rfl,
   (adapter_propagates_driver_errors (failingDriver (DriverError.mk "boom"))
      (DriverError.mk "boom")).2.1 sampleSession rfl,
   (adapter_propagates_driver_errors (failingDriver (DriverError.mk "boom"))
      (DriverError.mk "boom")).2.2 "k1" rfl⟩

/-- C9: when login resolves with an error value, the result is a
LoginError object whose only field is the optional shop field, and
that field, when present, is one of exactly the two values
MISSING_SHOP or INVALID_SHOP. -/
theorem login_error_shape :
    (∀ (e : LoginError) (t : LoginErrorType), e.shop = some t →
      t.value = "MISSING_SHOP" ∨ t.value = "INVALID_SHOP") ∧
    (∀ a b : LoginError, a.shop = b.shop → a = b) := by
  constructor
  · intro e t _
    cases t
    · exact Or.inl rfl
    · exact Or.inr rfl
  · intro a b h
    cases a
    cases b
    simpa using h

/-- Witness for C9: the shape theorem applied to a concrete LoginError
holding MissingShop, and to two equal concrete LoginError values. -/
theorem login_error_shape_witness :
    (LoginErrorType.value LoginErrorType.MissingShop = "MISSING_SHOP" ∨
     LoginErrorType.value LoginErrorType.MissingShop = "INVALID_SHOP") ∧
    LoginError.mk (some LoginErrorType.InvalidShop) =
      LoginError.mk (some LoginErrorType.InvalidShop) :=
  ⟨login_error_shape.1 (LoginError.mk (some LoginErrorType.MissingShop))
      LoginErrorType.MissingShop rfl,
   login_error_shape.2 (LoginError.mk (some LoginErrorType.InvalidShop))
      (LoginError.mk (some LoginErrorType.InvalidShop)) rfl⟩

/-- C10: the MongoDB session-storage package's jest configuration
equals the shared base jest configuration on every field except
testTimeout, which it overrides to 70000; no other field of the base
configuration is changed. -/
theorem mongodb_jest_overrides_only_testTimeout (baseConfig : JestConfig) :
    (mongodbJestConfig baseConfig).testTimeout = 70000 ∧
    (mongodbJestConfig baseConfig).preset = baseConfig.preset ∧
    (mongodbJestConfig baseConfig).testEnvironment = baseConfig.testEnvironment ∧
    (mongodbJestConfig baseConfig).testPathIgnorePatterns =
      baseConfig.testPathIgnorePatterns ∧
    (mongodbJestConfig baseConfig).watchPathIgnorePatterns =
      baseConfig.watchPathIgnorePatterns :=
  ⟨rfl, rfl, rfl, rfl, rfl⟩
